import Mathlib

set_option maxRecDepth 100000

/-!
Shallow embedding of `src/ebook-generator.py` (class `EbookGenerator`).

Conventions of the embedding:
* Python strings are Lean `String`s; the helpers below give structural
  (kernel-evaluable) models of the Python string methods the script uses
  (`str.replace`, `str.split`, `str.title`, `str.endswith`, `pathlib.Path.stem`).
* The docs directory is a map `String → Option String` from a chapter
  filename to its content (`none` = the file does not exist).
* `datetime.now().strftime('%B %d, %Y')` is an input `ts : String`.
* The external Markdown engine (`markdown.markdown`) is a parameter
  `md : String → String`; a concrete model is given only where a claim
  fixes the input content.
* Imperative functions with side effects (`generate_pdf_pandoc`,
  `generate_epub`, `generate_all`) are modelled as explicit state / event
  traces; subprocess outcomes are inputs.
-/

namespace Ebook

/-- `l` begins with `p` (helper for the Python string-method models). -/
def listStartsWith : List Char → List Char → Bool
  | _, [] => true
  | [], _ :: _ => false
  | a :: s, b :: p => a = b && listStartsWith s p

/-- Fuel-bounded replace-all of a nonempty pattern, scanning left to right
(the semantics of Python `str.replace` for a nonempty pattern).  The fuel is
the length of the scanned list, which suffices because every step consumes at
least one character. -/
def replaceFuel (pat rep : List Char) : Nat → List Char → List Char
  | 0, s => s
  | _ + 1, [] => []
  | fuel + 1, c :: cs =>
    if listStartsWith (c :: cs) pat then
      rep ++ replaceFuel pat rep fuel (List.drop pat.length (c :: cs))
    else
      c :: replaceFuel pat rep fuel cs

/-- Python `s.replace(pat, rep)` for a nonempty `pat` (the script only ever
replaces `".md"` and `"-"`). -/
def pyReplace (s pat rep : String) : String :=
  ⟨replaceFuel pat.data rep.data s.data.length s.data⟩

/-- Number of non-overlapping occurrences of a nonempty pattern, scanning left
to right (used by theorems to count substrings of generated output). -/
def countOccsFuel (pat : List Char) : Nat → List Char → Nat
  | 0, _ => 0
  | _ + 1, [] => 0
  | fuel + 1, c :: cs =>
    if listStartsWith (c :: cs) pat then
      1 + countOccsFuel pat fuel (List.drop pat.length (c :: cs))
    else
      countOccsFuel pat fuel cs

/-- Occurrence count of nonempty `pat` in `s`. -/
def countOccs (s pat : String) : Nat :=
  countOccsFuel pat.data s.data.length s.data

/-- Characters of `l` before the first occurrence of `sep`; models Python
`s.split(sep)[0]` for a one-character separator. -/
def takeUntilChar (sep : Char) : List Char → List Char
  | [] => []
  | c :: cs => if c = sep then [] else c :: takeUntilChar sep cs

/-- Python `s.endswith(suf)`. -/
def pyEndsWith (s suf : String) : Bool :=
  listStartsWith s.data.reverse suf.data.reverse

/-- Python `str.title()` for ASCII input: an alphabetic character is
uppercased when the previous character is not alphabetic and lowercased
otherwise; non-alphabetic characters are kept and reset the word boundary. -/
def pyTitle (s : String) : String :=
  ⟨(s.data.foldl
      (fun acc c =>
        if c.isAlpha then
          (acc.1.concat (if acc.2 then c.toLower else c.toUpper), true)
        else
          (acc.1.concat c, false))
      (([] : List Char), false)).1⟩

/-- Python `pathlib.Path(s).stem` for a bare, non-hidden filename (every name
in the Chapter Registry is one): the name with its last `.suffix` removed; a
dot-free name is returned unchanged. -/
def stem (s : String) : String :=
  if s.data.contains '.' then
    ⟨(s.data.reverse.drop ((takeUntilChar '.' s.data.reverse).length + 1)).reverse⟩
  else
    s

/-! ### The Chapter Registry and the HTML assembly pipeline -/

/-- `self.chapters`, the ordered Chapter Registry fixed in `__init__`. -/
def defaultChapters : List String :=
  ["01-introduction.md", "02-installation.md", "03-routing.md",
   "04-controllers.md", "05-blade.md", "06-eloquent.md", "07-migrations.md",
   "08-middleware.md", "09-auth.md", "10-events-queues.md", "11-testing.md",
   "12-deployment.md", "13-caching.md", "14-performance.md",
   "15-microservices.md"]

/-- `chapter.replace('.md', '').replace('-', ' ').title()` — the display name
derived from a registry filename. -/
def chapterName (chapter : String) : String :=
  pyTitle (pyReplace (pyReplace chapter ".md" "") "-" " ")

/-- `chapter.split('-')[0]` — the chapter-number token before the first
hyphen. -/
def chapterNumber (chapter : String) : String :=
  ⟨takeUntilChar '-' chapter.data⟩

/-- The f-string of line 222: one `<li>` table-of-contents entry; the `href`
target is the full registry filename `chapter`, `.md` extension included. -/
def tocEntry (chapter : String) : String :=
  "<li><a href=\"#" ++ chapter ++ "\">" ++ chapterNumber chapter ++ ". "
    ++ chapterName chapter ++ "</a></li>"

/-- The triple-quoted opening of `generate_toc` (lines 212-216), indentation
kept as in the source. -/
def tocHeader : String :=
  "\n        <div class=\"toc\">\n            <h1>Table of Contents</h1>\n            <ul>\n        "

/-- The triple-quoted closing of `generate_toc` (lines 224-227). -/
def tocFooter : String :=
  "\n            </ul>\n        </div>\n        "

/-- `EbookGenerator.generate_toc` (lines 210-229): starting from the header,
the loop appends one entry per registry chapter whose filename ends in
`.md`; it never consults the filesystem. -/
def generate_toc (chapters : List String) : String :=
  (chapters.foldl
    (fun acc chapter =>
      if pyEndsWith chapter ".md" then acc ++ tocEntry chapter else acc)
    tocHeader) ++ tocFooter

/-- The part of the cover f-string (lines 233-240) before the interpolated
generation date. -/
def coverPre : String :=
  "\n        <div class=\"cover\">\n            <h1>Laravel: From Zero to Production</h1>\n            <div class=\"subtitle\">A comprehensive guide to building modern web applications with Laravel</div>\n            <div class=\"author\">By Laravel Book Team</div>\n            <div class=\"date\">Generated on "

/-- The part of the cover f-string after the interpolated generation date. -/
def coverPost : String :=
  "</div>\n        </div>\n        "

/-- `EbookGenerator.generate_cover` (lines 231-242); the formatted
`datetime.now()` value is the input `ts`. -/
def generate_cover (ts : String) : String :=
  coverPre ++ ts ++ coverPost

/-- `EbookGenerator.convert_markdown_to_html` (lines 244-264): `""` when the
file is missing, otherwise the engine output wrapped in a chapter `div`
whose `id` is the filename's stem.  `md` is the external Markdown engine,
`fs` the docs directory. -/
def convert_markdown_to_html (md : String → String)
    (fs : String → Option String) (file : String) : String :=
  match fs file with
  | none => ""
  | some content =>
    "<div class=\"chapter\" id=\"" ++ stem file ++ "\">" ++ md content ++ "</div>"

/-- The opening f-string of `generate_html` (lines 268-278); `css` is the
`self.css` stylesheet fixed in `__init__`, treated as an opaque string. -/
def htmlHead (css : String) : String :=
  "\n        <!DOCTYPE html>\n        <html lang=\"en\">\n        <head>\n            <meta charset=\"UTF-8\">\n            <meta name=\"viewport\" content=\"width=device-width, initial-scale=1.0\">\n            <title>Laravel: From Zero to Production</title>\n            <style>"
    ++ css ++ "</style>\n        </head>\n        <body>\n        "

/-- The closing triple-quoted string of `generate_html` (lines 292-295). -/
def htmlTail : String :=
  "\n        </body>\n        </html>\n        "

/-- `EbookGenerator.generate_html` (lines 266-297): head, cover, table of
contents, then the loop of lines 287-290 appending a converted block for
each registry chapter whose source file exists, then the closing tag. -/
def generate_html (css : String) (chapters : List String)
    (md : String → String) (fs : String → Option String) (ts : String) :
    String :=
  (chapters.foldl
    (fun acc chapter =>
      if (fs chapter).isSome then
        acc ++ convert_markdown_to_html md fs chapter
      else
        acc)
    (htmlHead css ++ generate_cover ts ++ generate_toc chapters)) ++ htmlTail

/-! ### Anchor-id derivations (claim C1)

The two id formulas the source duplicates: the table-of-contents `href`
target of line 222 and the chapter-block `id` attribute of line 264. -/

/-- The anchor target interpolated into `href="#..."` at line 222: the loop
variable `chapter` itself, i.e. the full registry filename. -/
def toc_anchor (chapter : String) : String := chapter

/-- The `id` attribute interpolated at line 264: `markdown_file.stem`, the
filename without its `.md` extension. -/
def chapter_block_id (file : String) : String := stem file

/-! ### A Markdown-engine model for the end-to-end scenario -/

/-- Split on a separator character, Python-`str.split` style (an empty input
yields one empty field). -/
def splitOnChar (sep : Char) : List Char → List (List Char)
  | [] => [[]]
  | c :: cs =>
    match splitOnChar sep cs with
    | [] => [[c]]
    | h :: t => if c = sep then [] :: h :: t else (c :: h) :: t

/-- Join strings with a separator between consecutive elements. -/
def joinWith (sep : String) : List String → String
  | [] => ""
  | [s] => s
  | s :: rest => s ++ sep ++ joinWith sep rest

/-- Slug an `h1` heading text the way the engine's heading-anchor extension
does for plain ASCII words: lowercase, spaces to hyphens. -/
def headingSlug (t : String) : String :=
  ⟨t.data.map (fun c => if c = ' ' then '-' else c.toLower)⟩

/-- Modelled from the spec: the external Markdown engine (`markdown.markdown`
with the code-highlighting, tables, heading-anchor and fenced-code
extensions) is third-party code absent from `src/`.  It is modelled only as
far as the spec's end-to-end scenario content `"# Intro\nHello"` requires: a
line starting with `# ` becomes a level-1 heading carrying its anchor id,
any other line becomes a paragraph, and blocks are joined by newlines. -/
def markdown_render (content : String) : String :=
  joinWith "\n"
    (((splitOnChar '\n' content.data).map (fun l => (⟨l⟩ : String))).map
      (fun line =>
        if listStartsWith line.data "# ".data then
          "<h1 id=\"" ++ headingSlug ⟨line.data.drop 2⟩ ++ "\">"
            ++ (⟨line.data.drop 2⟩ : String) ++ "</h1>"
        else
          "<p>" ++ line ++ "</p>"))

/-- The registry of the spec's end-to-end scenario. -/
def regScenario : List String := ["01-introduction.md", "02-installation.md"]

/-- The docs directory of the spec's end-to-end scenario: only
`01-introduction.md` exists, with content `"# Intro\nHello"`. -/
def fsScenario : String → Option String := fun file =>
  if file = "01-introduction.md" then some "# Intro\nHello" else none

/-! ### The subprocess-backed renderers and the orchestrator

`generate_pdf_pandoc`, `generate_epub` and `generate_all` perform I/O; they
are embedded as explicit state passing over the outcomes of their effects.
The outcome of `subprocess.run(cmd, check=True)` is an input. -/

/-- Outcome of one `subprocess.run(cmd, check=True)` call: normal return,
`subprocess.CalledProcessError` (non-zero exit), or `FileNotFoundError`
(the tool is not installed). -/
inductive SubprocessOutcome where
  | ok
  | calledProcessError
  | notFound
deriving DecidableEq, Repr

/-- Result state of `EbookGenerator.generate_pdf_pandoc` (lines 326-377):
whether an exception propagated to the caller, and whether the temporary
`combined.md` file exists in the output directory when the call returns. -/
structure PandocPdfResult where
  raised : Bool
  combinedExists : Bool
deriving DecidableEq, Repr

/-- `EbookGenerator.generate_pdf_pandoc` (lines 326-377), step by step:
the `try` body writes `combined.md` (lines 330-351), runs the subprocess
(line 367), and unlinks `combined.md` (line 370) — the unlink is only
reached when `subprocess.run` returned normally; both `except` clauses
(lines 372-377) print and re-raise without touching the file. -/
def generate_pdf_pandoc (outcome : SubprocessOutcome) : PandocPdfResult :=
  -- after the `with open(combined_md, 'w')` block the file exists
  match outcome with
  | .ok =>
    -- `combined_md.unlink()` runs, then the function returns normally
    { raised := false, combinedExists := false }
  | .calledProcessError =>
    -- `raise` inside `except subprocess.CalledProcessError`; no unlink
    { raised := true, combinedExists := true }
  | .notFound =>
    -- `raise` inside `except FileNotFoundError`; no unlink
    { raised := true, combinedExists := true }

/-- The combined-Markdown content `generate_epub` writes (lines 385-395):
title line, generation-date line, then for each registry chapter whose
source exists a heading, the raw content and a horizontal rule. -/
def epubCombined (chapters : List String) (fs : String → Option String)
    (ts : String) : String :=
  "# Laravel: From Zero to Production\n\n"
    ++ ("*Generated on " ++ ts ++ "*\n\n")
    ++ chapters.foldl
        (fun acc chapter =>
          match fs chapter with
          | some content =>
            acc ++ ("\n# " ++ chapterName chapter ++ "\n\n") ++ content
              ++ "\n\n---\n\n"
          | none => acc)
        ""

/-- The `cmd` list built at lines 398-405: base command, `--toc`,
`--number-sections`, and as last element either the cover-image flag or the
empty string, by the conditional expression of line 404. -/
def epubCmd (coverExists : Bool) (combinedPath outputPath : String) :
    List String :=
  ["pandoc", combinedPath, "-o", outputPath, "--toc", "--number-sections",
   if coverExists then "--epub-cover-image=cover.png" else ""]

/-- Result state of `EbookGenerator.generate_epub` (lines 379-417). -/
structure EpubResult where
  combinedWritten : String
  cmd : List String
  subprocessInvoked : Bool
  raised : Bool
  combinedExists : Bool
deriving Repr

/-- `EbookGenerator.generate_epub` (lines 379-417): writes the combined
Markdown (no exceptions possible in the model of the write), always reaches
`subprocess.run` (line 407), unlinks `combined.md` (line 410) only when the
subprocess returned normally, and re-raises either failure. -/
def generate_epub (chapters : List String) (fs : String → Option String)
    (coverExists : Bool) (ts : String) (combinedPath outputPath : String)
    (outcome : SubprocessOutcome) : EpubResult :=
  let combined := epubCombined chapters fs ts
  let cmd := epubCmd coverExists combinedPath outputPath
  match outcome with
  | .ok =>
    { combinedWritten := combined, cmd := cmd, subprocessInvoked := true,
      raised := false, combinedExists := false }
  | .calledProcessError =>
    { combinedWritten := combined, cmd := cmd, subprocessInvoked := true,
      raised := true, combinedExists := true }
  | .notFound =>
    { combinedWritten := combined, cmd := cmd, subprocessInvoked := true,
      raised := true, combinedExists := true }

/-! ### The orchestrator `generate_all` -/

/-- The three PDF backends, in the source's preference order. -/
inductive PdfBackend where
  | weasyprint
  | pdfkit
  | pandoc
deriving DecidableEq, Repr

/-- Environment of one `generate_all` run: the import-time availability
flags, whether each stage's effect raises, and the subprocess outcomes. -/
structure RunEnv where
  weasyprintAvailable : Bool
  pdfkitAvailable : Bool
  htmlRaises : Bool
  weasyprintRaises : Bool
  pdfkitRaises : Bool
  pandocPdf : SubprocessOutcome
  pandocEpub : SubprocessOutcome
deriving DecidableEq, Repr

/-- Observable events of a `generate_all` run, in order. -/
inductive Event where
  | wroteHtml
  | ranWeasyprint
  | ranPdfkit
  | ranPandocPdf
  | loggedPdfFailure
  | ranPandocEpub
  | loggedEpubFailure
deriving DecidableEq, Repr

/-- The `if WEASYPRINT_AVAILABLE / elif PDFKIT_AVAILABLE / else` selection of
lines 436-443. -/
def pdfBackendChosen (env : RunEnv) : PdfBackend :=
  if env.weasyprintAvailable then .weasyprint
  else if env.pdfkitAvailable then .pdfkit
  else .pandoc

/-- Whether the backend selected at lines 436-443 fails at render time. -/
def chosenBackendFails (env : RunEnv) : Bool :=
  match pdfBackendChosen env with
  | .weasyprint => env.weasyprintRaises
  | .pdfkit => env.pdfkitRaises
  | .pandoc => env.pandocPdf != .ok

/-- The PDF section of `generate_all` (lines 432-446): the `try` block runs
exactly the branch selected by the availability flags; `except Exception`
logs the failure and falls through. -/
def pdfSection (env : RunEnv) : List Event :=
  if env.weasyprintAvailable then
    if env.weasyprintRaises then [.ranWeasyprint, .loggedPdfFailure]
    else [.ranWeasyprint]
  else if env.pdfkitAvailable then
    if env.pdfkitRaises then [.ranPdfkit, .loggedPdfFailure]
    else [.ranPdfkit]
  else
    if (generate_pdf_pandoc env.pandocPdf).raised then
      [.ranPandocPdf, .loggedPdfFailure]
    else [.ranPandocPdf]

/-- The EPUB section of `generate_all` (lines 448-455): `generate_epub` in a
`try`, `except Exception` logs the failure and falls through. -/
def epubSection (env : RunEnv) : List Event :=
  match env.pandocEpub with
  | .ok => [.ranPandocEpub]
  | .calledProcessError => [.ranPandocEpub, .loggedEpubFailure]
  | .notFound => [.ranPandocEpub, .loggedEpubFailure]

/-- Event list of a run whose HTML stage did not raise. -/
def runEvents (env : RunEnv) : List Event :=
  [Event.wroteHtml] ++ pdfSection env ++ epubSection env

/-- Outcome of a whole `generate_all` call: either the HTML stage's
exception escaped uncaught, or the run completed with the given events. -/
inductive RunResult where
  | uncaughtHtmlException
  | completed (events : List Event)
deriving DecidableEq, Repr

/-- `EbookGenerator.generate_all` (lines 419-457): the HTML assembly and
write (lines 424-428) are guarded by no handler, so an exception there
escapes; afterwards the PDF section and then the EPUB section run, each with
its own `except Exception` handler. -/
def generate_all (env : RunEnv) : RunResult :=
  if env.htmlRaises then .uncaughtHtmlException else .completed (runEvents env)

/-- Which events are PDF-backend invocations. -/
def isBackendRun : Event → Bool
  | .ranWeasyprint | .ranPdfkit | .ranPandocPdf => true
  | _ => false

/-- The invocation event of each PDF backend. -/
def runEventOf : PdfBackend → Event
  | .weasyprint => .ranWeasyprint
  | .pdfkit => .ranPdfkit
  | .pandoc => .ranPandocPdf

/-! ### Decomposition helpers used by the theorems -/

/-- Concatenation of a list of strings. -/
def strConcat : List String → String
  | [] => ""
  | s :: rest => s ++ strConcat rest

/-- The sequence of chapter blocks the loop of lines 287-290 appends: one
converted block per registry chapter whose source file exists, in registry
order. -/
def chapterBlocks (chapters : List String) (md : String → String)
    (fs : String → Option String) : String :=
  strConcat ((chapters.filter (fun c => (fs c).isSome)).map
    (convert_markdown_to_html md fs))

/-- Everything `generate_html` emits before the interpolated generation
date; it does not depend on the date. -/
def htmlBeforeDate (css : String) : String :=
  htmlHead css ++ coverPre

/-- Everything `generate_html` emits after the interpolated generation date;
it does not depend on the date. -/
def htmlAfterDate (chapters : List String) (md : String → String)
    (fs : String → Option String) : String :=
  coverPost ++ generate_toc chapters ++ chapterBlocks chapters md fs
    ++ htmlTail

end Ebook

namespace Ebook

/-! ### Basic string lemmas -/

theorem strAppend_assoc (a b c : String) : a ++ b ++ c = a ++ (b ++ c) := by
  apply String.ext
  simp only [String.data_append, List.append_assoc]

theorem strAppend_empty (s : String) : s ++ "" = s := by
  apply String.ext
  simp [String.data_append]

/-- A left fold that conditionally appends is the accumulator followed by
the concatenation of the images of the kept elements, in order. -/
theorem foldl_guard_append (p : String → Bool) (f : String → String)
    (l : List String) :
    ∀ acc : String,
      l.foldl (fun a c => if p c then a ++ f c else a) acc
        = acc ++ strConcat ((l.filter p).map f) := by
  induction l with
  | nil => intro acc; simp [strConcat, strAppend_empty]
  | cons c l ih =>
    intro acc
    by_cases h : p c
    · simp only [List.foldl_cons, h, if_true, List.filter_cons, List.map_cons]
      rw [ih, strConcat, strAppend_assoc]
    · simp only [List.foldl_cons, h, if_false, List.filter_cons,
        Bool.false_eq_true, List.map_cons]
      rw [ih]

/-- Decomposition of `generate_html`: head, cover, table of contents, the
chapter blocks of the existing chapters, closing tag. -/
theorem generate_html_eq (css : String) (chapters : List String)
    (md : String → String) (fs : String → Option String) (ts : String) :
    generate_html css chapters md fs ts
      = (htmlHead css ++ generate_cover ts ++ generate_toc chapters)
          ++ chapterBlocks chapters md fs ++ htmlTail := by
  unfold generate_html chapterBlocks
  rw [foldl_guard_append]

/-! ### Claim theorems -/

/-- C1: the claim asserts that the anchor id in each table-of-contents
`href` equals the `id` attribute of that chapter's assembled block.  The
code violates it: for the registry chapter `01-introduction.md`,
`generate_toc` (line 222) targets the full filename `01-introduction.md`
while `convert_markdown_to_html` (line 264) tags the block with the stem
`01-introduction`, so the internal link resolves to nothing.  The theorem
evaluates both id formulas, and the emitted strings, at that input. -/
theorem C1_toc_anchor_mismatch :
    toc_anchor "01-introduction.md" = "01-introduction.md"
    ∧ chapter_block_id "01-introduction.md" = "01-introduction"
    ∧ toc_anchor "01-introduction.md" ≠ chapter_block_id "01-introduction.md"
    ∧ tocEntry "01-introduction.md"
        = "<li><a href=\"#" ++ toc_anchor "01-introduction.md"
            ++ "\">01. 01 Introduction</a></li>"
    ∧ convert_markdown_to_html markdown_render fsScenario "01-introduction.md"
        = "<div class=\"chapter\" id=\""
            ++ chapter_block_id "01-introduction.md" ++ "\">"
            ++ markdown_render "# Intro\nHello" ++ "</div>" := by
  decide

/-- C2 counterexample: the claim asserts that `generate_pdf_pandoc` removes
the temporary combined-Markdown file on every failure path; at the concrete
failing inputs (non-zero subprocess exit, tool not found) the file still
exists when the call returns. -/
theorem C2_counterexample :
    (generate_pdf_pandoc .calledProcessError).combinedExists = true
    ∧ (generate_pdf_pandoc .calledProcessError).raised = true
    ∧ (generate_pdf_pandoc .notFound).combinedExists = true
    ∧ (generate_pdf_pandoc .notFound).raised = true := by
  decide

/-- C2 amended: `generate_pdf_pandoc` removes the temporary combined file
only on the success path; on a non-zero subprocess exit and on tool-not-found
the exception is re-raised and the file is left on disk. -/
theorem C2_cleanup_only_on_success :
    ((generate_pdf_pandoc .ok).combinedExists = false
      ∧ (generate_pdf_pandoc .ok).raised = false)
    ∧ ((generate_pdf_pandoc .calledProcessError).combinedExists = true
      ∧ (generate_pdf_pandoc .calledProcessError).raised = true)
    ∧ ((generate_pdf_pandoc .notFound).combinedExists = true
      ∧ (generate_pdf_pandoc .notFound).raised = true) := by
  decide

/-- C3 counterexample: in the spec's end-to-end scenario the claim asserts
the table of contents has exactly one entry, none for `02-installation`,
entry text `1. Introduction`, and link target `#01-introduction`.  The
generated table of contents has two entries, one of them targeting
`#02-installation.md`, contains no text `1. Introduction`, and no link
target `#01-introduction` (the targets keep the `.md` extension). -/
theorem C3_counterexample :
    countOccs (generate_toc regScenario) "<li>" = 2
    ∧ countOccs (generate_toc regScenario) "href=\"#02-installation.md\"" = 1
    ∧ countOccs (generate_toc regScenario) ">1. Introduction<" = 0
    ∧ countOccs (generate_toc regScenario) "href=\"#01-introduction\"" = 0 := by
  decide

/-- C3 amended: in the scenario (registry `01-introduction.md`,
`02-installation.md`; only the first exists, with content `# Intro\nHello`)
the generated HTML contains exactly one chapter block, with id
`01-introduction`, holding the `h1` heading `Intro` and the paragraph
`Hello`; the table of contents lists exactly two entries — `01. 01
Introduction` targeting `#01-introduction.md` and `02. 02 Installation`
targeting `#02-installation.md` — because `generate_toc` never consults the
filesystem; no chapter block exists for `02-installation`. -/
theorem C3_scenario_output (css ts : String) :
    generate_html css regScenario markdown_render fsScenario ts
      = htmlBeforeDate css ++ ts
          ++ (coverPost ++ generate_toc regScenario
              ++ "<div class=\"chapter\" id=\"01-introduction\"><h1 id=\"intro\">Intro</h1>\n<p>Hello</p></div>"
              ++ htmlTail)
    ∧ generate_toc regScenario
        = tocHeader
            ++ ("<li><a href=\"#01-introduction.md\">01. 01 Introduction</a></li>"
                ++ "<li><a href=\"#02-installation.md\">02. 02 Installation</a></li>")
            ++ tocFooter := by
  constructor
  · have hb : chapterBlocks regScenario markdown_render fsScenario
        = "<div class=\"chapter\" id=\"01-introduction\"><h1 id=\"intro\">Intro</h1>\n<p>Hello</p></div>" := by
      decide
    rw [generate_html_eq, hb]
    simp only [htmlBeforeDate, generate_cover, strAppend_assoc]
  · decide

/-- C4: for every combination of availability flags, the PDF section of
`generate_all` invokes exactly one backend — WeasyPrint if available, else
pdfkit if available, else the pandoc subprocess — and a render-time failure
of that chosen backend is logged as the failure of this PDF attempt without
any lower-preference backend being invoked. -/
theorem C4_exactly_one_backend (env : RunEnv) :
    (pdfSection env).filter isBackendRun = [runEventOf (pdfBackendChosen env)]
    ∧ (pdfSection env).head? = some (runEventOf (pdfBackendChosen env))
    ∧ (Event.loggedPdfFailure ∈ pdfSection env
        ↔ chosenBackendFails env = true) := by
  obtain ⟨w, p, h, wr, pr, po, pe⟩ := env
  cases w <;> cases p <;> cases h <;> cases wr <;> cases pr <;> cases po
    <;> cases pe <;> decide

/-- C6: in `generate_all`, an exception of the HTML stage escapes uncaught;
otherwise the HTML artifact is written first, the EPUB stage is attempted
regardless of the PDF stage's outcome, and each of the two later stages logs
its own failure independently. -/
theorem C6_run_order (env : RunEnv) :
    (env.htmlRaises = true → generate_all env = .uncaughtHtmlException)
    ∧ (env.htmlRaises = false →
        generate_all env = .completed (runEvents env)
        ∧ (runEvents env).head? = some Event.wroteHtml
        ∧ Event.ranPandocEpub ∈ runEvents env
        ∧ (Event.loggedPdfFailure ∈ runEvents env
            ↔ chosenBackendFails env = true)
        ∧ (Event.loggedEpubFailure ∈ runEvents env
            ↔ env.pandocEpub ≠ .ok)) := by
  obtain ⟨w, p, h, wr, pr, po, pe⟩ := env
  cases w <;> cases p <;> cases h <;> cases wr <;> cases pr <;> cases po
    <;> cases pe <;> decide

/-- Witness for C6 at two concrete environments, discharging each
hypothesis: a run whose HTML stage raises ends in the uncaught error; a run
with WeasyPrint available but failing still writes HTML first, logs the PDF
failure, attempts EPUB and logs its failure. -/
theorem C6_run_order_witness :
    generate_all ⟨false, false, true, false, false, .ok, .ok⟩
        = .uncaughtHtmlException
    ∧ (generate_all ⟨true, false, false, true, false, .ok, .calledProcessError⟩
        = .completed (runEvents ⟨true, false, false, true, false, .ok, .calledProcessError⟩)
      ∧ (runEvents ⟨true, false, false, true, false, .ok, .calledProcessError⟩).head?
          = some Event.wroteHtml
      ∧ Event.ranPandocEpub
          ∈ runEvents ⟨true, false, false, true, false, .ok, .calledProcessError⟩
      ∧ (Event.loggedPdfFailure
            ∈ runEvents ⟨true, false, false, true, false, .ok, .calledProcessError⟩
          ↔ chosenBackendFails ⟨true, false, false, true, false, .ok, .calledProcessError⟩ = true)
      ∧ (Event.loggedEpubFailure
            ∈ runEvents ⟨true, false, false, true, false, .ok, .calledProcessError⟩
          ↔ (⟨true, false, false, true, false, .ok, .calledProcessError⟩ : RunEnv).pandocEpub
              ≠ .ok)) :=
  ⟨(C6_run_order _).1 rfl, (C6_run_order _).2 rfl⟩

/-- C5: for every docs-directory state, `generate_html` contains exactly one
chapter block per registry chapter whose source file exists, these blocks
appear in registry order, and a missing chapter contributes no block and
does not abort assembly: the chapter region is precisely the concatenation
of the converted blocks of the existing chapters, filtered from the registry
in order. -/
theorem C5_one_block_per_existing_chapter (css : String)
    (chapters : List String) (md : String → String)
    (fs : String → Option String) (ts : String) :
    generate_html css chapters md fs ts
      = (htmlHead css ++ generate_cover ts ++ generate_toc chapters)
          ++ strConcat ((chapters.filter (fun c => (fs c).isSome)).map
              (convert_markdown_to_html md fs))
          ++ htmlTail := by
  rw [generate_html_eq]
  rfl

/-- C7: for every registry, `generate_toc` emits one entry per chapter whose
filename ends in `.md`, in registry order, and it takes no filesystem input
at all; every one of the fifteen default registry chapters ends in `.md`,
so all fifteen always receive an entry. -/
theorem C7_toc_entries (chapters : List String) :
    generate_toc chapters
      = tocHeader
          ++ strConcat ((chapters.filter (fun c => pyEndsWith c ".md")).map
              tocEntry)
          ++ tocFooter
    ∧ defaultChapters.filter (fun c => pyEndsWith c ".md") = defaultChapters
    ∧ defaultChapters.length = 15 := by
  refine ⟨?_, by decide, rfl⟩
  unfold generate_toc
  rw [foldl_guard_append]

/-- C8: with the registry, the stylesheet, the Markdown engine and the
docs-directory contents fixed, two runs of `generate_html` differ only in
the generation-date substring of the cover block: each output is the same
date-independent head followed by that run's date followed by the same
date-independent tail. -/
theorem C8_deterministic_up_to_timestamp (css : String)
    (chapters : List String) (md : String → String)
    (fs : String → Option String) (ts₁ ts₂ : String) :
    generate_html css chapters md fs ts₁
        = htmlBeforeDate css ++ ts₁ ++ htmlAfterDate chapters md fs
    ∧ generate_html css chapters md fs ts₂
        = htmlBeforeDate css ++ ts₂ ++ htmlAfterDate chapters md fs := by
  constructor <;>
    · rw [generate_html_eq]
      simp only [htmlBeforeDate, htmlAfterDate, generate_cover,
        strAppend_assoc]

/-- C9: when none of the registry chapter source files exist,
`generate_epub` still writes a combined Markdown document consisting of
exactly the title line and the generation-date line, and still reaches the
pandoc subprocess call, for every subprocess outcome. -/
theorem C9_epub_empty_docs (cover : Bool) (ts combinedPath outputPath : String)
    (outcome : SubprocessOutcome) :
    (generate_epub defaultChapters (fun _ => none) cover ts combinedPath
        outputPath outcome).combinedWritten
      = "# Laravel: From Zero to Production\n\n"
          ++ ("*Generated on " ++ ts ++ "*\n\n")
    ∧ (generate_epub defaultChapters (fun _ => none) cover ts combinedPath
        outputPath outcome).subprocessInvoked = true := by
  have hc : epubCombined defaultChapters (fun _ => none) ts
      = "# Laravel: From Zero to Production\n\n"
          ++ ("*Generated on " ++ ts ++ "*\n\n") := by
    unfold epubCombined
    rw [show (defaultChapters.foldl
        (fun acc chapter =>
          match (fun _ => (none : Option String)) chapter with
          | some content =>
            acc ++ ("\n# " ++ chapterName chapter ++ "\n\n") ++ content
              ++ "\n\n---\n\n"
          | none => acc) "") = "" from rfl]
    rw [strAppend_empty]
  cases outcome <;> exact ⟨hc, rfl⟩

/-- C10 counterexample: when the cover image is absent, the claim asserts
the argument list is exactly the base command; the list built at lines
398-405 instead carries an extra empty-string argument in the flag's
place. -/
theorem C10_counterexample :
    epubCmd false "ebook/combined.md" "ebook/laravel-book.epub"
      = ["pandoc", "ebook/combined.md", "-o", "ebook/laravel-book.epub",
         "--toc", "--number-sections", ""]
    ∧ epubCmd false "ebook/combined.md" "ebook/laravel-book.epub"
      ≠ ["pandoc", "ebook/combined.md", "-o", "ebook/laravel-book.epub",
         "--toc", "--number-sections"] := by
  decide

/-- C10 amended: the pandoc argument list of `generate_epub` ends with the
cover-image flag when `cover.png` exists and with an empty-string argument
when it does not; its length is always seven, so the absent flag leaves an
extra (empty) argument rather than no argument. -/
theorem C10_cover_flag (cover : Bool) (combinedPath outputPath : String) :
    epubCmd cover combinedPath outputPath
      = ["pandoc", combinedPath, "-o", outputPath, "--toc",
         "--number-sections"]
          ++ [if cover then "--epub-cover-image=cover.png" else ""]
    ∧ (epubCmd cover combinedPath outputPath).length = 7
    ∧ ((epubCmd cover combinedPath outputPath).getLast?
        = some "--epub-cover-image=cover.png" ↔ cover = true)
    ∧ ((epubCmd cover combinedPath outputPath).getLast? = some ""
        ↔ cover = false) := by
  cases cover <;> simp [epubCmd]

end Ebook
